import Mathlib

/-!
Shallow embedding of the RocksDB-backed event log store of
`rust/hyperlane-base/src/db/rocks/hyperlane_db.rs`.

The typed store maps `(column, key)` pairs to encoded values.  We model the
state as an association list from `(String × DbKey)` to tagged values; a
typed retrieval decodes the stored value and fails with a decode error when
the slot holds a value written under a different type (in the real code the
bytes of one type fail to decode as another fixed-size type).
-/

instance {ε : Type u} {α : Type v} [DecidableEq ε] [DecidableEq α] :
    DecidableEq (Except ε α) := fun a b =>
  match a, b with
  | .ok x, .ok y =>
      match decEq x y with
      | isTrue h => isTrue (by rw [h])
      | isFalse h => isFalse (fun hh => h (Except.ok.inj hh))
  | .error x, .error y =>
      match decEq x y with
      | isTrue h => isTrue (by rw [h])
      | isFalse h => isFalse (fun hh => h (Except.error.inj hh))
  | .ok _, .error _ => isFalse (fun hh => Except.noConfusion hh)
  | .error _, .ok _ => isFalse (fun hh => Except.noConfusion hh)

namespace HyperlaneDb

/-! ### Column name constants (hyperlane_db.rs lines 21-37) -/

def MESSAGE_ID : String := "message_id_"
def MESSAGE_DISPATCHED_BLOCK_NUMBER : String := "message_dispatched_block_number_"
def MESSAGE : String := "message_"
def NONCE_PROCESSED : String := "nonce_processed_"
def GAS_PAYMENT_BY_SEQUENCE : String := "gas_payment_by_sequence_"
def HIGHEST_SEEN_MESSAGE_NONCE : String := "highest_seen_message_nonce_"
def GAS_PAYMENT_FOR_MESSAGE_ID : String := "gas_payment_sequence_for_message_id_v2_"
def GAS_PAYMENT_META_PROCESSED : String := "gas_payment_meta_processed_v3_"
def MERKLE_TREE_INSERTION : String := "merkle_tree_insertion_"
def MERKLE_LEAF_INDEX_BY_MESSAGE_ID : String := "merkle_leaf_index_by_message_id_"
def MERKLE_TREE_INSERTION_BLOCK_NUMBER_BY_LEAF_INDEX : String :=
  "merkle_tree_insertion_block_number_by_leaf_index_"
def LATEST_INDEXED_GAS_PAYMENT_BLOCK : String := "latest_indexed_gas_payment_block"

/-! ### Domain data (hyperlane-core types; the crate is not under src/) -/

/-- Modelled from the spec: a message
`{version, nonce, origin, sender, destination, recipient, body}`; `H256`
values are modelled as `Nat`. -/
structure HyperlaneMessage where
  version : Nat
  nonce : Nat
  origin : Nat
  sender : Nat
  destination : Nat
  recipient : Nat
  body : Nat
deriving DecidableEq, Repr

/-- Modelled from the spec: `Identity = a content-derived 256-bit id,
deterministic function of all fields` (keccak of the canonical encoding in
hyperlane-core, which is not under src/); modelled as an injective pairing
of the fields. -/
def HyperlaneMessage.id (m : HyperlaneMessage) : Nat :=
  Nat.pair m.version (Nat.pair m.nonce (Nat.pair m.origin
    (Nat.pair m.sender (Nat.pair m.destination (Nat.pair m.recipient m.body)))))

/-- Modelled from the spec: gas payment keyed by
`(message id, destination domain)`, carrying a cumulative token amount. -/
structure InterchainGasPayment where
  message_id : Nat
  destination : Nat
  payment : Nat
deriving DecidableEq, Repr

/-- The logical aggregation key `(message id, destination domain)`. -/
structure GasPaymentKey where
  message_id : Nat
  destination : Nat
deriving DecidableEq, Repr

/-- `event.into()` for `InterchainGasPayment -> GasPaymentKey`. -/
def InterchainGasPayment.key (p : InterchainGasPayment) : GasPaymentKey :=
  ⟨p.message_id, p.destination⟩

/-- `InterchainGasPayment::from_gas_payment_key`: zero payment for a key. -/
def InterchainGasPayment.from_gas_payment_key (k : GasPaymentKey) : InterchainGasPayment :=
  ⟨k.message_id, k.destination, 0⟩

/-- `impl Add for InterchainGasPayment`: keeps the key, sums the amounts. -/
def addPayment (a b : InterchainGasPayment) : InterchainGasPayment :=
  ⟨a.message_id, a.destination, a.payment + b.payment⟩

/-- Modelled from the spec: a processing key is the payment's unique
on-chain metadata (transaction + log index). -/
structure InterchainGasPaymentMeta where
  transaction_id : Nat
  log_index : Nat
deriving DecidableEq, Repr

/-- Modelled from the spec: the on-chain coordinates of an emitted log. -/
structure LogMeta where
  block_number : Nat
  transaction_id : Nat
  log_index : Nat
deriving DecidableEq, Repr

/-- `log_meta.into()` for `&LogMeta -> InterchainGasPaymentMeta`. -/
def LogMeta.meta (l : LogMeta) : InterchainGasPaymentMeta :=
  ⟨l.transaction_id, l.log_index⟩

/-- Modelled from the spec: a merkle tree insertion `{leaf_index, message_id}`. -/
structure MerkleTreeInsertion where
  leaf_index : Nat
  message_id : Nat
deriving DecidableEq, Repr

/-- `insertion.index()`. -/
def MerkleTreeInsertion.index (i : MerkleTreeInsertion) : Nat := i.leaf_index

/-- `Indexed<T>`: a value together with an optional sequence number. -/
structure Indexed (α : Type) where
  inner : α
  sequence : Option Nat
deriving DecidableEq, Repr

/-! ### The typed keyed store -/

/-- The key part written after the column name. -/
inductive DbKey where
  | kU32 (n : Nat)
  | kH256 (h : Nat)
  | kGasKey (k : GasPaymentKey)
  | kMeta (m : InterchainGasPaymentMeta)
  | kBool (b : Bool)
  | kStr (s : String)
deriving DecidableEq, Repr

/-- A stored value, tagged by the type it was encoded from. -/
inductive DbValue where
  | vH256 (h : Nat)
  | vU32 (n : Nat)
  | vU64 (n : Nat)
  | vBool (b : Bool)
  | vMessage (m : HyperlaneMessage)
  | vPayment (p : InterchainGasPayment)
  | vPaymentData (amount : Nat)
  | vInsertion (i : MerkleTreeInsertion)
deriving DecidableEq, Repr

/-- The store state: later writes shadow earlier ones. -/
abbrev Db := List ((String × DbKey) × DbValue)

def emptyDb : Db := []

def dbPut (db : Db) (c : String) (k : DbKey) (v : DbValue) : Db :=
  ((c, k), v) :: db

def dbGet : Db → String → DbKey → Option DbValue
  | [], _, _ => none
  | (ck, v) :: rest, c, k => if ck = (c, k) then some v else dbGet rest c k

/-- Storage errors: a stored value failed to decode at the expected type. -/
inductive DbError where
  | decodeError
deriving DecidableEq, Repr

abbrev DbResult (α : Type) := Except DbError α

/-! ### Typed decode of a retrieved slot -/

def decH256 : Option DbValue → DbResult (Option Nat)
  | none => .ok none
  | some (.vH256 h) => .ok (some h)
  | some _ => .error .decodeError

def decU32 : Option DbValue → DbResult (Option Nat)
  | none => .ok none
  | some (.vU32 n) => .ok (some n)
  | some _ => .error .decodeError

def decU64 : Option DbValue → DbResult (Option Nat)
  | none => .ok none
  | some (.vU64 n) => .ok (some n)
  | some _ => .error .decodeError

def decBool : Option DbValue → DbResult (Option Bool)
  | none => .ok none
  | some (.vBool b) => .ok (some b)
  | some _ => .error .decodeError

def decMessage : Option DbValue → DbResult (Option HyperlaneMessage)
  | none => .ok none
  | some (.vMessage m) => .ok (some m)
  | some _ => .error .decodeError

def decPayment : Option DbValue → DbResult (Option InterchainGasPayment)
  | none => .ok none
  | some (.vPayment p) => .ok (some p)
  | some _ => .error .decodeError

def decPaymentData : Option DbValue → DbResult (Option Nat)
  | none => .ok none
  | some (.vPaymentData a) => .ok (some a)
  | some _ => .error .decodeError

def decInsertion : Option DbValue → DbResult (Option MerkleTreeInsertion)
  | none => .ok none
  | some (.vInsertion i) => .ok (some i)
  | some _ => .error .decodeError

/-! ### The macro-generated store/retrieve pairs (lines 504-550) -/

def store_message_id_by_nonce (db : Db) (nonce : Nat) (id : Nat) : Db :=
  dbPut db MESSAGE_ID (.kU32 nonce) (.vH256 id)

def retrieve_message_id_by_nonce (db : Db) (nonce : Nat) : DbResult (Option Nat) :=
  decH256 (dbGet db MESSAGE_ID (.kU32 nonce))

def store_message_by_id (db : Db) (id : Nat) (m : HyperlaneMessage) : Db :=
  dbPut db MESSAGE (.kH256 id) (.vMessage m)

def retrieve_message_by_id (db : Db) (id : Nat) : DbResult (Option HyperlaneMessage) :=
  decMessage (dbGet db MESSAGE (.kH256 id))

def store_dispatched_block_number_by_nonce (db : Db) (nonce : Nat) (b : Nat) : Db :=
  dbPut db MESSAGE_DISPATCHED_BLOCK_NUMBER (.kU32 nonce) (.vU64 b)

def retrieve_dispatched_block_number_by_nonce (db : Db) (nonce : Nat) : DbResult (Option Nat) :=
  decU64 (dbGet db MESSAGE_DISPATCHED_BLOCK_NUMBER (.kU32 nonce))

def store_processed_by_gas_payment_meta (db : Db) (m : InterchainGasPaymentMeta) (b : Bool) : Db :=
  dbPut db GAS_PAYMENT_META_PROCESSED (.kMeta m) (.vBool b)

def retrieve_processed_by_gas_payment_meta (db : Db) (m : InterchainGasPaymentMeta) :
    DbResult (Option Bool) :=
  decBool (dbGet db GAS_PAYMENT_META_PROCESSED (.kMeta m))

def store_interchain_gas_payment_data_by_gas_payment_key (db : Db) (k : GasPaymentKey)
    (amount : Nat) : Db :=
  dbPut db GAS_PAYMENT_FOR_MESSAGE_ID (.kGasKey k) (.vPaymentData amount)

def retrieve_interchain_gas_payment_data_by_gas_payment_key (db : Db) (k : GasPaymentKey) :
    DbResult (Option Nat) :=
  decPaymentData (dbGet db GAS_PAYMENT_FOR_MESSAGE_ID (.kGasKey k))

/-- NOTE (lines 518-519 of the source): both `gas_payment_by_sequence` and
`gas_payment_block_by_sequence` are generated with the same column constant
`GAS_PAYMENT_BY_SEQUENCE`. -/
def store_gas_payment_by_sequence (db : Db) (seq : Nat) (p : InterchainGasPayment) : Db :=
  dbPut db GAS_PAYMENT_BY_SEQUENCE (.kU32 seq) (.vPayment p)

def retrieve_gas_payment_by_sequence (db : Db) (seq : Nat) :
    DbResult (Option InterchainGasPayment) :=
  decPayment (dbGet db GAS_PAYMENT_BY_SEQUENCE (.kU32 seq))

def store_gas_payment_block_by_sequence (db : Db) (seq : Nat) (b : Nat) : Db :=
  dbPut db GAS_PAYMENT_BY_SEQUENCE (.kU32 seq) (.vU64 b)

def retrieve_gas_payment_block_by_sequence (db : Db) (seq : Nat) : DbResult (Option Nat) :=
  decU64 (dbGet db GAS_PAYMENT_BY_SEQUENCE (.kU32 seq))

def store_merkle_tree_insertion_by_leaf_index (db : Db) (i : Nat) (ins : MerkleTreeInsertion) :
    Db :=
  dbPut db MERKLE_TREE_INSERTION (.kU32 i) (.vInsertion ins)

def retrieve_merkle_tree_insertion_by_leaf_index (db : Db) (i : Nat) :
    DbResult (Option MerkleTreeInsertion) :=
  decInsertion (dbGet db MERKLE_TREE_INSERTION (.kU32 i))

def store_merkle_leaf_index_by_message_id (db : Db) (id : Nat) (i : Nat) : Db :=
  dbPut db MERKLE_LEAF_INDEX_BY_MESSAGE_ID (.kH256 id) (.vU32 i)

def retrieve_merkle_leaf_index_by_message_id (db : Db) (id : Nat) : DbResult (Option Nat) :=
  decU32 (dbGet db MERKLE_LEAF_INDEX_BY_MESSAGE_ID (.kH256 id))

def store_merkle_tree_insertion_block_number_by_leaf_index (db : Db) (i : Nat) (b : Nat) : Db :=
  dbPut db MERKLE_TREE_INSERTION_BLOCK_NUMBER_BY_LEAF_INDEX (.kU32 i) (.vU64 b)

def retrieve_merkle_tree_insertion_block_number_by_leaf_index (db : Db) (i : Nat) :
    DbResult (Option Nat) :=
  decU64 (dbGet db MERKLE_TREE_INSERTION_BLOCK_NUMBER_BY_LEAF_INDEX (.kU32 i))

def store_highest_seen_message_nonce_number (db : Db) (key : Bool) (nonce : Nat) : Db :=
  dbPut db HIGHEST_SEEN_MESSAGE_NONCE (.kBool key) (.vU32 nonce)

def retrieve_highest_seen_message_nonce_number (db : Db) (key : Bool) : DbResult (Option Nat) :=
  decU32 (dbGet db HIGHEST_SEEN_MESSAGE_NONCE (.kBool key))

/-! ### Operations (hyperlane_db.rs lines 83-286) -/

/-- `retrieve_highest_seen_message_nonce` (lines 128-130): the single-slot
cursor read with the `Default::default()` (`false`) key. -/
def retrieve_highest_seen_message_nonce (db : Db) : DbResult (Option Nat) :=
  retrieve_highest_seen_message_nonce_number db false

/-- `try_update_max_seen_message_nonce` (lines 117-125): reads the cursor
(propagating errors), and stores `nonce` when `nonce >= current_max` where a
missing cursor defaults to `0`. -/
def try_update_max_seen_message_nonce (db : Db) (nonce : Nat) : DbResult Unit × Db :=
  match retrieve_highest_seen_message_nonce db with
  | .error e => (.error e, db)
  | .ok cur =>
      if cur.getD 0 ≤ nonce then
        (.ok (), store_highest_seen_message_nonce_number db false nonce)
      else
        (.ok (), db)

/-- The fresh-store path of `store_message` (lines 93-104): writes
`id → message`, `nonce → id`, updates the cursor, writes
`nonce → dispatched block number`. -/
def store_message_fresh (db : Db) (message : HyperlaneMessage)
    (dispatched_block_number : Nat) : DbResult Bool × Db :=
  match try_update_max_seen_message_nonce
      (store_message_id_by_nonce (store_message_by_id db message.id message)
        message.nonce message.id)
      message.nonce with
  | (.error e, db) => (.error e, db)
  | (.ok _, db) =>
      (.ok true,
        store_dispatched_block_number_by_nonce db message.nonce dispatched_block_number)

/-- `store_message` (lines 83-105).  The duplicate check is
`if let Ok(Some(_))`: a read error falls through to the store path. -/
def store_message (db : Db) (message : HyperlaneMessage)
    (dispatched_block_number : Nat) : DbResult Bool × Db :=
  match retrieve_message_id_by_nonce db message.nonce with
  | .ok (some _) => (.ok false, db)
  | _ => store_message_fresh db message dispatched_block_number

/-- `retrieve_message_by_nonce` (lines 108-114). -/
def retrieve_message_by_nonce (db : Db) (nonce : Nat) : DbResult (Option HyperlaneMessage) :=
  match retrieve_message_id_by_nonce db nonce with
  | .error e => .error e
  | .ok none => .ok none
  | .ok (some id) => retrieve_message_by_id db id

/-- `retrieve_gas_payment_by_gas_payment_key` (lines 265-274): reads the
stored amount and completes it with the key's fields. -/
def retrieve_gas_payment_by_gas_payment_key (db : Db) (k : GasPaymentKey) :
    DbResult (Option InterchainGasPayment) :=
  match retrieve_interchain_gas_payment_data_by_gas_payment_key db k with
  | .error e => .error e
  | .ok none => .ok none
  | .ok (some amount) => .ok (some ⟨k.message_id, k.destination, amount⟩)

/-- `update_gas_payment_by_gas_payment_key` (lines 230-243): read-modify-write
of the aggregate; the read propagates errors via `?`. -/
def update_gas_payment_by_gas_payment_key (db : Db) (event : InterchainGasPayment) :
    DbResult Db :=
  match retrieve_gas_payment_by_gas_payment_key db event.key with
  | .error e => .error e
  | .ok existing? =>
      .ok (store_interchain_gas_payment_data_by_gas_payment_key db event.key
        (addPayment (existing?.getD (InterchainGasPayment.from_gas_payment_key event.key))
          event).payment)

/-- `process_gas_payment` (lines 167-194): processing-key idempotency, then
aggregate accumulation; both reads propagate errors via `?`. -/
def process_gas_payment (db : Db) (payment : InterchainGasPayment) (log_meta : LogMeta) :
    DbResult Bool × Db :=
  match retrieve_processed_by_gas_payment_meta db log_meta.meta with
  | .error e => (.error e, db)
  | .ok processed =>
      if processed.getD false then
        (.ok false, db)
      else
        match update_gas_payment_by_gas_payment_key
            (store_processed_by_gas_payment_meta db log_meta.meta true) payment with
        | .error e => (.error e, store_processed_by_gas_payment_meta db log_meta.meta true)
        | .ok db => (.ok true, db)

/-- `process_indexed_gas_payment` (lines 135-162).  The sequence duplicate
check is `if let Ok(Some(_))`: a read error falls through to the store path. -/
def process_indexed_gas_payment (db : Db) (indexed_payment : Indexed InterchainGasPayment)
    (log_meta : LogMeta) : DbResult Bool × Db :=
  match process_gas_payment db indexed_payment.inner log_meta with
  | (.error e, db) => (.error e, db)
  | (.ok gas_processing_successful, db) =>
      match indexed_payment.sequence with
      | none => (.ok gas_processing_successful, db)
      | some gas_payment_sequence =>
          match retrieve_gas_payment_by_sequence db gas_payment_sequence with
          | .ok (some _) => (.ok false, db)
          | _ =>
              (.ok gas_processing_successful,
                store_gas_payment_block_by_sequence
                  (store_gas_payment_by_sequence db gas_payment_sequence indexed_payment.inner)
                  gas_payment_sequence log_meta.block_number)

/-- `process_tree_insertion` (lines 197-220).  The duplicate check is
`if let Ok(Some(_))`: a read error falls through to the store path. -/
def process_tree_insertion (db : Db) (insertion : MerkleTreeInsertion)
    (insertion_block_number : Nat) : DbResult Bool × Db :=
  match retrieve_merkle_tree_insertion_by_leaf_index db insertion.index with
  | .ok (some _) => (.ok false, db)
  | _ =>
      (.ok true,
        store_merkle_tree_insertion_block_number_by_leaf_index
          (store_merkle_leaf_index_by_message_id
            (store_merkle_tree_insertion_by_leaf_index db insertion.index insertion)
            insertion.message_id insertion.index)
          insertion.index insertion_block_number)

/-! ### Watermarked log store (lines 402-443) -/

/-- The three event kinds with a `HyperlaneWatermarkedLogStore` impl. -/
inductive EventKind where
  | message
  | gasPayment
  | merkleInsertion
deriving DecidableEq, Repr

/-- Errors surfaced by the watermark operations: a storage error, or the
`bail!("Not implemented")` of the stub impls for messages and insertions. -/
inductive StoreError where
  | db (e : DbError)
  | notImplemented
deriving DecidableEq, Repr

/-- `retrieve_high_watermark` per event kind (lines 405-408, 421-423,
435-437): gas payments read the unkeyed
`LATEST_INDEXED_GAS_PAYMENT_BLOCK` slot; the other kinds bail. -/
def retrieve_high_watermark : EventKind → Db → Except StoreError (Option Nat)
  | .gasPayment, db =>
      match decU32 (dbGet db "" (.kStr LATEST_INDEXED_GAS_PAYMENT_BLOCK)) with
      | .error e => .error (.db e)
      | .ok w => .ok w
  | .message, _ => .error .notImplemented
  | .merkleInsertion, _ => .error .notImplemented

/-- `store_high_watermark` per event kind (lines 411-414, 426-428,
440-442): gas payments overwrite the slot unconditionally; the other kinds
bail. -/
def store_high_watermark : EventKind → Db → Nat → Except StoreError Db
  | .gasPayment, db, block_number =>
      .ok (dbPut db "" (.kStr LATEST_INDEXED_GAS_PAYMENT_BLOCK) (.vU32 block_number))
  | .message, _, _ => .error .notImplemented
  | .merkleInsertion, _, _ => .error .notImplemented

/-- Sequential ingestion of a batch of messages, as `store_logs` for
`HyperlaneLogStore<HyperlaneMessage>` does (lines 292-304), keeping only the
resulting state; an error aborts the rest of the batch. -/
def store_messages (db : Db) : List (HyperlaneMessage × Nat) → DbResult Db
  | [] => .ok db
  | (m, b) :: rest =>
      match store_message db m b with
      | (.error e, _) => .error e
      | (.ok _, db1) => store_messages db1 rest

/-! ### Basic store lemmas -/

theorem dbGet_put_self (db : Db) (c : String) (k : DbKey) (v : DbValue) :
    dbGet (dbPut db c k v) c k = some v := by
  simp [dbGet, dbPut]

theorem dbGet_put_ne (db : Db) (c' : String) (k' : DbKey) (v : DbValue) (c : String) (k : DbKey)
    (h : ¬((c', k') = (c, k))) :
    dbGet (dbPut db c' k' v) c k = dbGet db c k := by
  simp [dbGet, dbPut, h]

theorem decH256_eq_ok_none {o : Option DbValue} : decH256 o = .ok none ↔ o = none := by
  cases o with
  | none => simp [decH256]
  | some v => cases v <;> simp [decH256]

theorem decH256_eq_ok_some {o : Option DbValue} {x : Nat} :
    decH256 o = .ok (some x) ↔ o = some (.vH256 x) := by
  cases o with
  | none => simp [decH256]
  | some v => cases v <;> simp [decH256]

theorem decU32_eq_ok_none {o : Option DbValue} : decU32 o = .ok none ↔ o = none := by
  cases o with
  | none => simp [decU32]
  | some v => cases v <;> simp [decU32]

theorem decU32_eq_ok_some {o : Option DbValue} {x : Nat} :
    decU32 o = .ok (some x) ↔ o = some (.vU32 x) := by
  cases o with
  | none => simp [decU32]
  | some v => cases v <;> simp [decU32]

theorem decU64_eq_ok_none {o : Option DbValue} : decU64 o = .ok none ↔ o = none := by
  cases o with
  | none => simp [decU64]
  | some v => cases v <;> simp [decU64]

theorem decU64_eq_ok_some {o : Option DbValue} {x : Nat} :
    decU64 o = .ok (some x) ↔ o = some (.vU64 x) := by
  cases o with
  | none => simp [decU64]
  | some v => cases v <;> simp [decU64]

theorem decBool_eq_ok_none {o : Option DbValue} : decBool o = .ok none ↔ o = none := by
  cases o with
  | none => simp [decBool]
  | some v => cases v <;> simp [decBool]

theorem decBool_eq_ok_some {o : Option DbValue} {x : Bool} :
    decBool o = .ok (some x) ↔ o = some (.vBool x) := by
  cases o with
  | none => simp [decBool]
  | some v => cases v <;> simp [decBool]

theorem decMessage_eq_ok_none {o : Option DbValue} : decMessage o = .ok none ↔ o = none := by
  cases o with
  | none => simp [decMessage]
  | some v => cases v <;> simp [decMessage]

theorem decMessage_eq_ok_some {o : Option DbValue} {x : HyperlaneMessage} :
    decMessage o = .ok (some x) ↔ o = some (.vMessage x) := by
  cases o with
  | none => simp [decMessage]
  | some v => cases v <;> simp [decMessage]

theorem decPayment_eq_ok_none {o : Option DbValue} : decPayment o = .ok none ↔ o = none := by
  cases o with
  | none => simp [decPayment]
  | some v => cases v <;> simp [decPayment]

theorem decPayment_eq_ok_some {o : Option DbValue} {x : InterchainGasPayment} :
    decPayment o = .ok (some x) ↔ o = some (.vPayment x) := by
  cases o with
  | none => simp [decPayment]
  | some v => cases v <;> simp [decPayment]

theorem decPaymentData_eq_ok_none {o : Option DbValue} :
    decPaymentData o = .ok none ↔ o = none := by
  cases o with
  | none => simp [decPaymentData]
  | some v => cases v <;> simp [decPaymentData]

theorem decPaymentData_eq_ok_some {o : Option DbValue} {x : Nat} :
    decPaymentData o = .ok (some x) ↔ o = some (.vPaymentData x) := by
  cases o with
  | none => simp [decPaymentData]
  | some v => cases v <;> simp [decPaymentData]

theorem decInsertion_eq_ok_none {o : Option DbValue} : decInsertion o = .ok none ↔ o = none := by
  cases o with
  | none => simp [decInsertion]
  | some v => cases v <;> simp [decInsertion]

theorem decInsertion_eq_ok_some {o : Option DbValue} {x : MerkleTreeInsertion} :
    decInsertion o = .ok (some x) ↔ o = some (.vInsertion x) := by
  cases o with
  | none => simp [decInsertion]
  | some v => cases v <;> simp [decInsertion]

/-! ### Helper lemmas about the cursor update and message storage -/

theorem try_update_ok (db : Db) (nonce : Nat) (w : Option Nat)
    (hw : retrieve_highest_seen_message_nonce db = .ok w) :
    try_update_max_seen_message_nonce db nonce =
      if w.getD 0 ≤ nonce then (.ok (), store_highest_seen_message_nonce_number db false nonce)
      else (.ok (), db) := by
  unfold try_update_max_seen_message_nonce
  rw [hw]

theorem try_update_cursor (db : Db) (nonce : Nat) (w : Option Nat)
    (hw : retrieve_highest_seen_message_nonce db = .ok w) :
    ∃ d, try_update_max_seen_message_nonce db nonce = (.ok (), d) ∧
      (∀ c k, ¬(((HIGHEST_SEEN_MESSAGE_NONCE : String), DbKey.kBool false) = (c, k)) →
        dbGet d c k = dbGet db c k) ∧
      retrieve_highest_seen_message_nonce d = .ok (some (max (w.getD 0) nonce)) := by
  by_cases hc : w.getD 0 ≤ nonce
  · rw [try_update_ok _ _ _ hw, if_pos hc]
    refine ⟨_, rfl, fun c k hck => dbGet_put_ne _ _ _ _ _ _ hck, ?_⟩
    rw [show retrieve_highest_seen_message_nonce
          (store_highest_seen_message_nonce_number db false nonce)
        = decU32 (dbGet (store_highest_seen_message_nonce_number db false nonce)
            HIGHEST_SEEN_MESSAGE_NONCE (DbKey.kBool false)) from rfl]
    rw [show dbGet (store_highest_seen_message_nonce_number db false nonce)
          HIGHEST_SEEN_MESSAGE_NONCE (DbKey.kBool false) = some (DbValue.vU32 nonce)
        from dbGet_put_self _ _ _ _]
    rw [Nat.max_eq_right hc]
    rfl
  · rw [try_update_ok _ _ _ hw, if_neg hc]
    refine ⟨_, rfl, fun c k hck => rfl, ?_⟩
    rw [hw]
    cases w with
    | none => exact absurd (Nat.zero_le nonce) hc
    | some x =>
        have hx : nonce ≤ x := Nat.le_of_lt (Nat.lt_of_not_le hc)
        rw [show max (Option.getD (some x) 0) nonce = x from Nat.max_eq_left hx]

/-- The full effect of a successful `store_message` on a state whose nonce
slot is empty and whose cursor slot is well-typed. -/
theorem store_message_ok (db : Db) (m : HyperlaneMessage) (b : Nat) (w : Option Nat)
    (hfresh : retrieve_message_id_by_nonce db m.nonce = .ok none)
    (hw : retrieve_highest_seen_message_nonce db = .ok w) :
    ∃ db1, store_message db m b = (.ok true, db1) ∧
      retrieve_highest_seen_message_nonce db1 = .ok (some (max (w.getD 0) m.nonce)) ∧
      (∀ n, n ≠ m.nonce →
        retrieve_message_id_by_nonce db1 n = retrieve_message_id_by_nonce db n) ∧
      retrieve_message_id_by_nonce db1 m.nonce = .ok (some m.id) ∧
      retrieve_message_by_id db1 m.id = .ok (some m) ∧
      retrieve_dispatched_block_number_by_nonce db1 m.nonce = .ok (some b) := by
  have h1 : store_message db m b = store_message_fresh db m b := by
    unfold store_message; rw [hfresh]
  have hcur : retrieve_highest_seen_message_nonce
      (store_message_id_by_nonce (store_message_by_id db m.id m) m.nonce m.id) = .ok w := by
    simpa [retrieve_highest_seen_message_nonce, retrieve_highest_seen_message_nonce_number,
      store_message_id_by_nonce, store_message_by_id, dbPut, dbGet, MESSAGE, MESSAGE_ID,
      HIGHEST_SEEN_MESSAGE_NONCE] using hw
  obtain ⟨db3, h3, hframe3, hcur3⟩ :=
    try_update_cursor
      (store_message_id_by_nonce (store_message_by_id db m.id m) m.nonce m.id) m.nonce w hcur
  refine ⟨store_dispatched_block_number_by_nonce db3 m.nonce b, ?_, ?_, ?_, ?_, ?_, ?_⟩
  · rw [h1]; unfold store_message_fresh; rw [h3]
  · rw [show retrieve_highest_seen_message_nonce
        (store_dispatched_block_number_by_nonce db3 m.nonce b)
        = decU32 (dbGet (store_dispatched_block_number_by_nonce db3 m.nonce b)
            HIGHEST_SEEN_MESSAGE_NONCE (DbKey.kBool false)) from rfl]
    unfold store_dispatched_block_number_by_nonce
    rw [dbGet_put_ne _ _ _ _ _ _
      (by simp [MESSAGE_DISPATCHED_BLOCK_NUMBER, HIGHEST_SEEN_MESSAGE_NONCE])]
    exact hcur3
  · intro n hn
    rw [show retrieve_message_id_by_nonce (store_dispatched_block_number_by_nonce db3 m.nonce b) n
        = decH256 (dbGet (store_dispatched_block_number_by_nonce db3 m.nonce b)
            MESSAGE_ID (DbKey.kU32 n)) from rfl]
    unfold store_dispatched_block_number_by_nonce
    rw [dbGet_put_ne _ _ _ _ _ _ (by simp [MESSAGE_DISPATCHED_BLOCK_NUMBER, MESSAGE_ID])]
    rw [hframe3 _ _ (by simp [HIGHEST_SEEN_MESSAGE_NONCE, MESSAGE_ID])]
    unfold store_message_id_by_nonce store_message_by_id
    rw [dbGet_put_ne _ _ _ _ _ _ (by simp; omega)]
    rw [dbGet_put_ne _ _ _ _ _ _ (by simp [MESSAGE, MESSAGE_ID])]
    rfl
  · rw [show retrieve_message_id_by_nonce
        (store_dispatched_block_number_by_nonce db3 m.nonce b) m.nonce
        = decH256 (dbGet (store_dispatched_block_number_by_nonce db3 m.nonce b)
            MESSAGE_ID (DbKey.kU32 m.nonce)) from rfl]
    rw [decH256_eq_ok_some]
    unfold store_dispatched_block_number_by_nonce
    rw [dbGet_put_ne _ _ _ _ _ _ (by simp [MESSAGE_DISPATCHED_BLOCK_NUMBER, MESSAGE_ID])]
    rw [hframe3 _ _ (by simp [HIGHEST_SEEN_MESSAGE_NONCE, MESSAGE_ID])]
    unfold store_message_id_by_nonce
    exact dbGet_put_self _ _ _ _
  · rw [show retrieve_message_by_id (store_dispatched_block_number_by_nonce db3 m.nonce b) m.id
        = decMessage (dbGet (store_dispatched_block_number_by_nonce db3 m.nonce b)
            MESSAGE (DbKey.kH256 m.id)) from rfl]
    rw [decMessage_eq_ok_some]
    unfold store_dispatched_block_number_by_nonce
    rw [dbGet_put_ne _ _ _ _ _ _ (by simp [MESSAGE_DISPATCHED_BLOCK_NUMBER, MESSAGE])]
    rw [hframe3 _ _ (by simp [HIGHEST_SEEN_MESSAGE_NONCE, MESSAGE])]
    unfold store_message_id_by_nonce store_message_by_id
    rw [dbGet_put_ne _ _ _ _ _ _ (by simp [MESSAGE_ID, MESSAGE])]
    exact dbGet_put_self _ _ _ _
  · rw [show retrieve_dispatched_block_number_by_nonce
        (store_dispatched_block_number_by_nonce db3 m.nonce b) m.nonce
        = decU64 (dbGet (store_dispatched_block_number_by_nonce db3 m.nonce b)
            MESSAGE_DISPATCHED_BLOCK_NUMBER (DbKey.kU32 m.nonce)) from rfl]
    rw [decU64_eq_ok_some]
    unfold store_dispatched_block_number_by_nonce
    exact dbGet_put_self _ _ _ _

/-! ### Claim C2: idempotent message storage -/

/-- C2: for every message `m` not previously stored (fresh nonce slot,
well-typed cursor slot) and block number `b`, the first
`store_message m b` returns `true` and stores the `id → message`,
`nonce → id` and `nonce → dispatched-block-number` mappings; a second
`store_message m b\'` returns `false` and leaves the state — in particular
those three mappings and the block number stored by the first call —
unchanged. -/
theorem store_message_idempotent (db : Db) (m : HyperlaneMessage) (b b' : Nat) (w : Option Nat)
    (hfresh : retrieve_message_id_by_nonce db m.nonce = .ok none)
    (hw : retrieve_highest_seen_message_nonce db = .ok w) :
    ∃ db1, store_message db m b = (.ok true, db1) ∧
      retrieve_message_by_id db1 m.id = .ok (some m) ∧
      retrieve_message_id_by_nonce db1 m.nonce = .ok (some m.id) ∧
      retrieve_dispatched_block_number_by_nonce db1 m.nonce = .ok (some b) ∧
      store_message db1 m b' = (.ok false, db1) := by
  obtain ⟨db1, hstore, _, _, hid, hmsg, hblk⟩ := store_message_ok db m b w hfresh hw
  refine ⟨db1, hstore, hmsg, hid, hblk, ?_⟩
  unfold store_message
  rw [hid]

def mDemo : HyperlaneMessage := ⟨0, 5, 1, 2, 3, 4, 6⟩

/-- Witness for C2 at a concrete message and the empty store. -/
theorem store_message_idempotent_witness :
    ∃ db1, store_message emptyDb mDemo 100 = (.ok true, db1) ∧
      retrieve_message_by_id db1 mDemo.id = .ok (some mDemo) ∧
      retrieve_message_id_by_nonce db1 mDemo.nonce = .ok (some mDemo.id) ∧
      retrieve_dispatched_block_number_by_nonce db1 mDemo.nonce = .ok (some 100) ∧
      store_message db1 mDemo 200 = (.ok false, db1) :=
  store_message_idempotent emptyDb mDemo 100 200 none rfl rfl

/-! ### Claim C7: the highest-seen-nonce cursor is the max of stored nonces -/

theorem store_messages_go (l : List (HyperlaneMessage × Nat)) :
    ∀ (db : Db) (w : Option Nat),
      retrieve_highest_seen_message_nonce db = .ok w →
      (∀ p ∈ l, retrieve_message_id_by_nonce db p.1.nonce = .ok none) →
      (l.map fun p => p.1.nonce).Nodup →
      ∃ db', store_messages db l = .ok db' ∧
        retrieve_highest_seen_message_nonce db' =
          .ok (if l.isEmpty then w
               else some (l.foldl (fun a p => max a p.1.nonce) (w.getD 0))) := by
  induction l with
  | nil => exact fun db w hw _ _ => ⟨db, rfl, by simpa using hw⟩
  | cons hd tl ih =>
      obtain ⟨m, b⟩ := hd
      intro db w hw hfresh hnd
      rw [List.map_cons] at hnd
      have hnd' := List.nodup_cons.mp hnd
      obtain ⟨db1, hstore, hcur1, hpres, _, _, _⟩ :=
        store_message_ok db m b w (hfresh (m, b) (by simp)) hw
      have hfresh1 : ∀ p ∈ tl, retrieve_message_id_by_nonce db1 p.1.nonce = .ok none := by
        intro p hp
        have hne : p.1.nonce ≠ m.nonce := by
          intro hcontra
          exact hnd'.1 (hcontra ▸ List.mem_map_of_mem _ hp)
        exact (hpres p.1.nonce hne).trans (hfresh p (by simp [hp]))
      obtain ⟨db', hrun, hcur'⟩ :=
        ih db1 (some (max (w.getD 0) m.nonce)) hcur1 hfresh1 hnd'.2
      refine ⟨db', ?_, ?_⟩
      · unfold store_messages
        rw [hstore]
        exact hrun
      · rw [hcur']
        cases tl <;> simp

/-- C7: after any nonempty sequence of successful `store_message` calls with
distinct nonces starting from the empty store, the highest-seen-nonce cursor
equals the maximum stored nonce (the fold of `max` over the nonces), because
`store_message` updates the cursor exactly when the new nonce is at least the
current maximum. -/
theorem highest_seen_nonce_is_max (l : List (HyperlaneMessage × Nat)) (hne : l ≠ [])
    (hnd : (l.map fun p => p.1.nonce).Nodup) :
    ∃ db', store_messages emptyDb l = .ok db' ∧
      retrieve_highest_seen_message_nonce db' =
        .ok (some (l.foldl (fun a p => max a p.1.nonce) 0)) := by
  obtain ⟨db', h1, h2⟩ := store_messages_go l emptyDb none rfl (fun p _ => rfl) hnd
  refine ⟨db', h1, ?_⟩
  rw [h2, if_neg (by simpa using hne)]
  rfl

def demoMsgs : List (HyperlaneMessage × Nat) :=
  [(⟨0, 5, 0, 0, 0, 0, 0⟩, 10), (⟨0, 3, 0, 0, 0, 0, 1⟩, 11),
   (⟨0, 9, 0, 0, 0, 0, 2⟩, 12), (⟨0, 1, 0, 0, 0, 0, 3⟩, 13)]

/-- Witness for C7: storing messages with nonces `[5, 3, 9, 1]` in that
order leaves the cursor at `9`. -/
theorem highest_seen_nonce_is_max_witness :
    ∃ db', store_messages emptyDb demoMsgs = .ok db' ∧
      retrieve_highest_seen_message_nonce db' = .ok (some 9) :=
  highest_seen_nonce_is_max demoMsgs (by decide) (by decide)

/-! ### Helper lemmas for gas payment processing -/

theorem retrieve_gas_key_none_iff (db : Db) (k : GasPaymentKey) :
    retrieve_gas_payment_by_gas_payment_key db k = .ok none ↔
      retrieve_interchain_gas_payment_data_by_gas_payment_key db k = .ok none := by
  unfold retrieve_gas_payment_by_gas_payment_key
  cases h : retrieve_interchain_gas_payment_data_by_gas_payment_key db k with
  | error e => simp
  | ok o => cases o <;> simp

/-- The full effect of `process_gas_payment` on a state whose processing
flag for the log is absent and whose aggregate slot is well-typed. -/
theorem process_gas_payment_ok (db : Db) (p : InterchainGasPayment) (lm : LogMeta)
    (a? : Option Nat)
    (hmeta : retrieve_processed_by_gas_payment_meta db lm.meta = .ok none)
    (hagg : retrieve_interchain_gas_payment_data_by_gas_payment_key db p.key = .ok a?) :
    process_gas_payment db p lm =
      (.ok true, store_interchain_gas_payment_data_by_gas_payment_key
        (store_processed_by_gas_payment_meta db lm.meta true) p.key
        (a?.getD 0 + p.payment)) := by
  have hagg2 : retrieve_interchain_gas_payment_data_by_gas_payment_key
      (store_processed_by_gas_payment_meta db lm.meta true) p.key = .ok a? := by
    rw [show retrieve_interchain_gas_payment_data_by_gas_payment_key
          (store_processed_by_gas_payment_meta db lm.meta true) p.key
        = decPaymentData (dbGet (store_processed_by_gas_payment_meta db lm.meta true)
            GAS_PAYMENT_FOR_MESSAGE_ID (DbKey.kGasKey p.key)) from rfl]
    unfold store_processed_by_gas_payment_meta
    rw [dbGet_put_ne _ _ _ _ _ _
      (by simp [GAS_PAYMENT_META_PROCESSED, GAS_PAYMENT_FOR_MESSAGE_ID])]
    exact hagg
  have hupd : update_gas_payment_by_gas_payment_key
      (store_processed_by_gas_payment_meta db lm.meta true) p = .ok
        (store_interchain_gas_payment_data_by_gas_payment_key
          (store_processed_by_gas_payment_meta db lm.meta true) p.key
          (a?.getD 0 + p.payment)) := by
    unfold update_gas_payment_by_gas_payment_key retrieve_gas_payment_by_gas_payment_key
    rw [hagg2]
    cases a? with
    | none => simp [addPayment, InterchainGasPayment.from_gas_payment_key]
    | some a => simp [addPayment]
  unfold process_gas_payment
  rw [hmeta, hupd]
  rfl

/-! ### Claim C4: gas payment duplicate suppression -/

/-- C4: re-processing a gas payment whose processing key (derived from the
log metadata) is already marked processed returns `false`, leaves the state
unchanged, and in particular leaves the stored aggregate total of every gas
payment key unchanged. -/
theorem gas_payment_duplicate_suppression (db : Db) (p : InterchainGasPayment) (lm : LogMeta)
    (h : retrieve_processed_by_gas_payment_meta db lm.meta = .ok (some true)) :
    process_gas_payment db p lm = (.ok false, db) ∧
    ∀ k, retrieve_gas_payment_by_gas_payment_key (process_gas_payment db p lm).2 k =
      retrieve_gas_payment_by_gas_payment_key db k := by
  have h1 : process_gas_payment db p lm = (.ok false, db) := by
    unfold process_gas_payment
    rw [h]
    rfl
  exact ⟨h1, fun k => by rw [h1]⟩

def pDemo : InterchainGasPayment := ⟨1, 2, 3⟩
def lmDemo : LogMeta := ⟨10, 4, 0⟩

/-- Witness for C4: after a first `process_gas_payment`, re-processing the
same log returns `false` and leaves the state unchanged. -/
theorem gas_payment_duplicate_suppression_witness :
    process_gas_payment (process_gas_payment emptyDb pDemo lmDemo).2 pDemo lmDemo =
      (.ok false, (process_gas_payment emptyDb pDemo lmDemo).2) ∧
    ∀ k, retrieve_gas_payment_by_gas_payment_key
        (process_gas_payment (process_gas_payment emptyDb pDemo lmDemo).2 pDemo lmDemo).2 k =
      retrieve_gas_payment_by_gas_payment_key (process_gas_payment emptyDb pDemo lmDemo).2 k :=
  gas_payment_duplicate_suppression (process_gas_payment emptyDb pDemo lmDemo).2 pDemo lmDemo rfl

/-! ### Claim C3: order-independent gas payment aggregation -/

theorem retrieve_processed_def (db : Db) (m : InterchainGasPaymentMeta) :
    retrieve_processed_by_gas_payment_meta db m =
      decBool (dbGet db GAS_PAYMENT_META_PROCESSED (.kMeta m)) := rfl

theorem retrieve_agg_data_def (db : Db) (k : GasPaymentKey) :
    retrieve_interchain_gas_payment_data_by_gas_payment_key db k =
      decPaymentData (dbGet db GAS_PAYMENT_FOR_MESSAGE_ID (.kGasKey k)) := rfl

theorem retrieve_gas_key_data (db : Db) (k : GasPaymentKey) (a : Nat)
    (h : retrieve_interchain_gas_payment_data_by_gas_payment_key db k = .ok (some a)) :
    retrieve_gas_payment_by_gas_payment_key db k =
      .ok (some ⟨k.message_id, k.destination, a⟩) := by
  unfold retrieve_gas_payment_by_gas_payment_key
  rw [h]

/-- Processing two payments to the same key under two fresh, distinct
processing keys yields the sum of the two amounts as the stored total. -/
theorem process_two_fresh (db : Db) (pa pb : InterchainGasPayment) (la lb : LogMeta)
    (hkey : pa.key = pb.key) (hm : la.meta ≠ lb.meta)
    (ha : retrieve_processed_by_gas_payment_meta db la.meta = .ok none)
    (hb : retrieve_processed_by_gas_payment_meta db lb.meta = .ok none)
    (h0 : retrieve_gas_payment_by_gas_payment_key db pa.key = .ok none) :
    ∃ dbA dbB, process_gas_payment db pa la = (.ok true, dbA) ∧
      process_gas_payment dbA pb lb = (.ok true, dbB) ∧
      retrieve_gas_payment_by_gas_payment_key dbB pa.key =
        .ok (some ⟨pa.key.message_id, pa.key.destination, pa.payment + pb.payment⟩) := by
  have h0' := (retrieve_gas_key_none_iff db pa.key).mp h0
  have hstep1 := process_gas_payment_ok db pa la none ha h0'
  have hmetaB : retrieve_processed_by_gas_payment_meta
      (store_interchain_gas_payment_data_by_gas_payment_key
        (store_processed_by_gas_payment_meta db la.meta true) pa.key
        ((none : Option Nat).getD 0 + pa.payment)) lb.meta = .ok none := by
    rw [retrieve_processed_def]
    unfold store_interchain_gas_payment_data_by_gas_payment_key
      store_processed_by_gas_payment_meta
    rw [dbGet_put_ne _ _ _ _ _ _
      (by simp [GAS_PAYMENT_FOR_MESSAGE_ID, GAS_PAYMENT_META_PROCESSED])]
    rw [dbGet_put_ne _ _ _ _ _ _ (by simp [hm])]
    exact hb
  have haggB : retrieve_interchain_gas_payment_data_by_gas_payment_key
      (store_interchain_gas_payment_data_by_gas_payment_key
        (store_processed_by_gas_payment_meta db la.meta true) pa.key
        ((none : Option Nat).getD 0 + pa.payment)) pb.key =
      .ok (some ((none : Option Nat).getD 0 + pa.payment)) := by
    rw [retrieve_agg_data_def, ← hkey]
    unfold store_interchain_gas_payment_data_by_gas_payment_key
    rw [dbGet_put_self]
    rfl
  have hstep2 := process_gas_payment_ok _ pb lb (some ((none : Option Nat).getD 0 + pa.payment))
    hmetaB haggB
  refine ⟨_, _, hstep1, hstep2, ?_⟩
  have hfinal : retrieve_interchain_gas_payment_data_by_gas_payment_key
      (store_interchain_gas_payment_data_by_gas_payment_key
        (store_processed_by_gas_payment_meta
          (store_interchain_gas_payment_data_by_gas_payment_key
            (store_processed_by_gas_payment_meta db la.meta true) pa.key
            ((none : Option Nat).getD 0 + pa.payment)) lb.meta true) pb.key
        ((some ((none : Option Nat).getD 0 + pa.payment)).getD 0 + pb.payment)) pa.key =
      .ok (some ((some ((none : Option Nat).getD 0 + pa.payment)).getD 0 + pb.payment)) := by
    rw [retrieve_agg_data_def, hkey]
    unfold store_interchain_gas_payment_data_by_gas_payment_key
    rw [dbGet_put_self]
    rfl
  have hr := retrieve_gas_key_data _ pa.key _ hfinal
  simpa using hr

/-- C3: for two gas payments to the same gas payment key processed under
distinct, fresh processing keys, the retrievable total afterwards equals the
sum of the two amounts, whichever order the two payments are processed in. -/
theorem gas_payment_aggregation (db : Db) (p1 p2 : InterchainGasPayment) (l1 l2 : LogMeta)
    (hkey : p1.key = p2.key) (hm12 : l1.meta ≠ l2.meta)
    (h1 : retrieve_processed_by_gas_payment_meta db l1.meta = .ok none)
    (h2 : retrieve_processed_by_gas_payment_meta db l2.meta = .ok none)
    (h0 : retrieve_gas_payment_by_gas_payment_key db p1.key = .ok none) :
    (∃ dbA dbB, process_gas_payment db p1 l1 = (.ok true, dbA) ∧
       process_gas_payment dbA p2 l2 = (.ok true, dbB) ∧
       retrieve_gas_payment_by_gas_payment_key dbB p1.key =
         .ok (some ⟨p1.key.message_id, p1.key.destination, p1.payment + p2.payment⟩)) ∧
    (∃ dbC dbD, process_gas_payment db p2 l2 = (.ok true, dbC) ∧
       process_gas_payment dbC p1 l1 = (.ok true, dbD) ∧
       retrieve_gas_payment_by_gas_payment_key dbD p1.key =
         .ok (some ⟨p1.key.message_id, p1.key.destination, p1.payment + p2.payment⟩)) := by
  constructor
  · exact process_two_fresh db p1 p2 l1 l2 hkey hm12 h1 h2 h0
  · obtain ⟨dbC, dbD, hC, hD, hret⟩ :=
      process_two_fresh db p2 p1 l2 l1 hkey.symm (fun h => hm12 h.symm) h2 h1 (hkey ▸ h0)
    refine ⟨dbC, dbD, hC, hD, ?_⟩
    rw [← hkey] at hret
    rw [hret, Nat.add_comm p2.payment p1.payment]

def p2Demo : InterchainGasPayment := ⟨1, 2, 7⟩
def lm2Demo : LogMeta := ⟨11, 4, 1⟩

/-- Witness for C3 at two concrete payments to the same key. -/
theorem gas_payment_aggregation_witness :
    (∃ dbA dbB, process_gas_payment emptyDb pDemo lmDemo = (.ok true, dbA) ∧
       process_gas_payment dbA p2Demo lm2Demo = (.ok true, dbB) ∧
       retrieve_gas_payment_by_gas_payment_key dbB pDemo.key =
         .ok (some ⟨pDemo.key.message_id, pDemo.key.destination,
           pDemo.payment + p2Demo.payment⟩)) ∧
    (∃ dbC dbD, process_gas_payment emptyDb p2Demo lm2Demo = (.ok true, dbC) ∧
       process_gas_payment dbC pDemo lmDemo = (.ok true, dbD) ∧
       retrieve_gas_payment_by_gas_payment_key dbD pDemo.key =
         .ok (some ⟨pDemo.key.message_id, pDemo.key.destination,
           pDemo.payment + p2Demo.payment⟩)) :=
  gas_payment_aggregation emptyDb pDemo p2Demo lmDemo lm2Demo rfl (by decide) rfl rfl rfl

/-! ### Claim C6: merkle insertion uniqueness -/

theorem retrieve_insertion_def (db : Db) (i : Nat) :
    retrieve_merkle_tree_insertion_by_leaf_index db i =
      decInsertion (dbGet db MERKLE_TREE_INSERTION (.kU32 i)) := rfl

theorem retrieve_leaf_index_def (db : Db) (id : Nat) :
    retrieve_merkle_leaf_index_by_message_id db id =
      decU32 (dbGet db MERKLE_LEAF_INDEX_BY_MESSAGE_ID (.kH256 id)) := rfl

theorem retrieve_insertion_block_def (db : Db) (i : Nat) :
    retrieve_merkle_tree_insertion_block_number_by_leaf_index db i =
      decU64 (dbGet db MERKLE_TREE_INSERTION_BLOCK_NUMBER_BY_LEAF_INDEX (.kU32 i)) := rfl

/-- C6: only the first `process_tree_insertion` call for a leaf index is
stored — it stores `leaf_index → insertion`, `message_id → leaf_index` and
`leaf_index → block_number` and returns `true`; any call whose leaf index
already has a stored insertion (even with a different message id or block
number) returns `false` and leaves the state unchanged. -/
theorem merkle_insertion_unique :
    (∀ (db : Db) (ins : MerkleTreeInsertion) (b : Nat),
       retrieve_merkle_tree_insertion_by_leaf_index db ins.index = .ok none →
       ∃ db1, process_tree_insertion db ins b = (.ok true, db1) ∧
         retrieve_merkle_tree_insertion_by_leaf_index db1 ins.index = .ok (some ins) ∧
         retrieve_merkle_leaf_index_by_message_id db1 ins.message_id = .ok (some ins.index) ∧
         retrieve_merkle_tree_insertion_block_number_by_leaf_index db1 ins.index =
           .ok (some b)) ∧
    (∀ (db : Db) (ins : MerkleTreeInsertion) (b : Nat) (x : MerkleTreeInsertion),
       retrieve_merkle_tree_insertion_by_leaf_index db ins.index = .ok (some x) →
       process_tree_insertion db ins b = (.ok false, db)) := by
  constructor
  · intro db ins b h
    refine ⟨store_merkle_tree_insertion_block_number_by_leaf_index
      (store_merkle_leaf_index_by_message_id
        (store_merkle_tree_insertion_by_leaf_index db ins.index ins)
        ins.message_id ins.index)
      ins.index b, ?_, ?_, ?_, ?_⟩
    · unfold process_tree_insertion
      rw [h]
    · rw [retrieve_insertion_def]
      unfold store_merkle_tree_insertion_block_number_by_leaf_index
        store_merkle_leaf_index_by_message_id store_merkle_tree_insertion_by_leaf_index
      rw [dbGet_put_ne _ _ _ _ _ _
        (by simp [MERKLE_TREE_INSERTION_BLOCK_NUMBER_BY_LEAF_INDEX, MERKLE_TREE_INSERTION])]
      rw [dbGet_put_ne _ _ _ _ _ _
        (by simp [MERKLE_LEAF_INDEX_BY_MESSAGE_ID, MERKLE_TREE_INSERTION])]
      rw [dbGet_put_self]
      rfl
    · rw [retrieve_leaf_index_def]
      unfold store_merkle_tree_insertion_block_number_by_leaf_index
        store_merkle_leaf_index_by_message_id
      rw [dbGet_put_ne _ _ _ _ _ _
        (by simp [MERKLE_TREE_INSERTION_BLOCK_NUMBER_BY_LEAF_INDEX,
          MERKLE_LEAF_INDEX_BY_MESSAGE_ID])]
      rw [dbGet_put_self]
      rfl
    · rw [retrieve_insertion_block_def]
      unfold store_merkle_tree_insertion_block_number_by_leaf_index
      rw [dbGet_put_self]
      rfl
  · intro db ins b x h
    unfold process_tree_insertion
    rw [h]

def insDemo : MerkleTreeInsertion := ⟨9, 77⟩
def ins2Demo : MerkleTreeInsertion := ⟨9, 88⟩
def dbInsDemo : Db := (process_tree_insertion emptyDb insDemo 5).2

/-- Witness for C6: a first insertion at leaf index 9 is stored; a second
insertion at leaf index 9 with a different message id and block number is a
no-op returning `false`. -/
theorem merkle_insertion_unique_witness :
    (∃ db1, process_tree_insertion emptyDb insDemo 5 = (.ok true, db1) ∧
       retrieve_merkle_tree_insertion_by_leaf_index db1 insDemo.index = .ok (some insDemo) ∧
       retrieve_merkle_leaf_index_by_message_id db1 insDemo.message_id =
         .ok (some insDemo.index) ∧
       retrieve_merkle_tree_insertion_block_number_by_leaf_index db1 insDemo.index =
         .ok (some 5)) ∧
    process_tree_insertion dbInsDemo ins2Demo 6 = (.ok false, dbInsDemo) :=
  ⟨merkle_insertion_unique.1 emptyDb insDemo 5 rfl,
   merkle_insertion_unique.2 dbInsDemo ins2Demo 6 insDemo rfl⟩

/-! ### Claim C5: sequence indexing of gas payments -/

theorem update_result (db : Db) (p : InterchainGasPayment) :
    (∃ e, update_gas_payment_by_gas_payment_key db p = .error e) ∨
    (∃ amt, update_gas_payment_by_gas_payment_key db p = .ok
      (store_interchain_gas_payment_data_by_gas_payment_key db p.key amt)) := by
  unfold update_gas_payment_by_gas_payment_key
  cases h : retrieve_gas_payment_by_gas_payment_key db p.key with
  | error e => exact .inl ⟨e, rfl⟩
  | ok o => exact .inr ⟨_, rfl⟩

theorem dbGet_process_gas_payment (db : Db) (p : InterchainGasPayment) (lm : LogMeta)
    (c : String) (k : DbKey)
    (h1 : GAS_PAYMENT_META_PROCESSED ≠ c) (h2 : GAS_PAYMENT_FOR_MESSAGE_ID ≠ c) :
    dbGet (process_gas_payment db p lm).2 c k = dbGet db c k := by
  unfold process_gas_payment
  cases hp : retrieve_processed_by_gas_payment_meta db lm.meta with
  | error e => rfl
  | ok processed =>
      by_cases hb : processed.getD false
      · simp [hb]
      · cases hu : update_gas_payment_by_gas_payment_key
            (store_processed_by_gas_payment_meta db lm.meta true) p with
        | error e =>
            simp [hb, store_processed_by_gas_payment_meta, dbGet, dbPut, h1]
        | ok d =>
            rcases update_result (store_processed_by_gas_payment_meta db lm.meta true) p with
              ⟨e2, hu2⟩ | ⟨amt, hu2⟩
            · rw [hu] at hu2
              exact absurd hu2 (by simp)
            · rw [hu] at hu2
              injection hu2 with hd
              subst hd
              simp [hb, store_processed_by_gas_payment_meta,
                store_interchain_gas_payment_data_by_gas_payment_key, dbGet, dbPut, h1, h2]

theorem retrieve_seq_payment_def (db : Db) (s : Nat) :
    retrieve_gas_payment_by_sequence db s =
      decPayment (dbGet db GAS_PAYMENT_BY_SEQUENCE (.kU32 s)) := rfl

theorem retrieve_seq_block_def (db : Db) (s : Nat) :
    retrieve_gas_payment_block_by_sequence db s =
      decU64 (dbGet db GAS_PAYMENT_BY_SEQUENCE (.kU32 s)) := rfl

theorem retrieve_seq_process_gas_payment (db : Db) (p : InterchainGasPayment) (lm : LogMeta)
    (s : Nat) :
    retrieve_gas_payment_by_sequence (process_gas_payment db p lm).2 s =
      retrieve_gas_payment_by_sequence db s := by
  rw [retrieve_seq_payment_def, retrieve_seq_payment_def,
    dbGet_process_gas_payment db p lm _ _
      (by simp [GAS_PAYMENT_META_PROCESSED, GAS_PAYMENT_BY_SEQUENCE])
      (by simp [GAS_PAYMENT_FOR_MESSAGE_ID, GAS_PAYMENT_BY_SEQUENCE])]

theorem retrieve_blk_process_gas_payment (db : Db) (p : InterchainGasPayment) (lm : LogMeta)
    (s : Nat) :
    retrieve_gas_payment_block_by_sequence (process_gas_payment db p lm).2 s =
      retrieve_gas_payment_block_by_sequence db s := by
  rw [retrieve_seq_block_def, retrieve_seq_block_def,
    dbGet_process_gas_payment db p lm _ _
      (by simp [GAS_PAYMENT_META_PROCESSED, GAS_PAYMENT_BY_SEQUENCE])
      (by simp [GAS_PAYMENT_FOR_MESSAGE_ID, GAS_PAYMENT_BY_SEQUENCE])]

/-- C5: `process_indexed_gas_payment` (i) without a sequence number returns
exactly `process_gas_payment`'s result and leaves all sequence-keyed slots
untouched (the payment is aggregated but absent from sequence-keyed
retrieval); (ii) with a sequence number already recorded in sequence-keyed
storage it returns `false` even when `process_gas_payment` returned true;
(iii) with a fresh sequence number it stores the sequence-keyed entries and
returns `process_gas_payment`'s result. -/
theorem sequence_indexing_optionality :
    (∀ (db : Db) (ip : Indexed InterchainGasPayment) (lm : LogMeta), ip.sequence = none →
       process_indexed_gas_payment db ip lm = process_gas_payment db ip.inner lm ∧
       (∀ s, retrieve_gas_payment_by_sequence (process_indexed_gas_payment db ip lm).2 s =
          retrieve_gas_payment_by_sequence db s) ∧
       (∀ s, retrieve_gas_payment_block_by_sequence (process_indexed_gas_payment db ip lm).2 s =
          retrieve_gas_payment_block_by_sequence db s)) ∧
    (∀ (db : Db) (ip : Indexed InterchainGasPayment) (lm : LogMeta) (s : Nat)
       (q : InterchainGasPayment) (r1 : Bool) (db1 : Db), ip.sequence = some s →
       process_gas_payment db ip.inner lm = (.ok r1, db1) →
       retrieve_gas_payment_by_sequence db s = .ok (some q) →
       process_indexed_gas_payment db ip lm = (.ok false, db1)) ∧
    (∀ (db : Db) (ip : Indexed InterchainGasPayment) (lm : LogMeta) (s : Nat)
       (r1 : Bool) (db1 : Db), ip.sequence = some s →
       process_gas_payment db ip.inner lm = (.ok r1, db1) →
       retrieve_gas_payment_by_sequence db s = .ok none →
       process_indexed_gas_payment db ip lm =
         (.ok r1, store_gas_payment_block_by_sequence
           (store_gas_payment_by_sequence db1 s ip.inner) s lm.block_number) ∧
       retrieve_gas_payment_block_by_sequence
         (store_gas_payment_block_by_sequence
           (store_gas_payment_by_sequence db1 s ip.inner) s lm.block_number) s =
         .ok (some lm.block_number)) := by
  refine ⟨?_, ?_, ?_⟩
  · intro db ip lm h
    have hmain : process_indexed_gas_payment db ip lm = process_gas_payment db ip.inner lm := by
      unfold process_indexed_gas_payment
      cases hres : process_gas_payment db ip.inner lm with
      | mk r d =>
          cases r with
          | error e => rfl
          | ok g => rw [h]
    refine ⟨hmain, fun s => ?_, fun s => ?_⟩
    · rw [hmain]; exact retrieve_seq_process_gas_payment db ip.inner lm s
    · rw [hmain]; exact retrieve_blk_process_gas_payment db ip.inner lm s
  · intro db ip lm s q r1 db1 hseq hproc hret
    have hret1 : retrieve_gas_payment_by_sequence db1 s = .ok (some q) := by
      have hfr := retrieve_seq_process_gas_payment db ip.inner lm s
      rw [hproc] at hfr
      rw [hfr, hret]
    unfold process_indexed_gas_payment
    simp only [hproc, hseq, hret1]
  · intro db ip lm s r1 db1 hseq hproc hret
    have hret1 : retrieve_gas_payment_by_sequence db1 s = .ok none := by
      have hfr := retrieve_seq_process_gas_payment db ip.inner lm s
      rw [hproc] at hfr
      rw [hfr, hret]
    constructor
    · unfold process_indexed_gas_payment
      simp only [hproc, hseq, hret1]
    · rw [retrieve_seq_block_def]
      unfold store_gas_payment_block_by_sequence
      rw [dbGet_put_self]
      rfl

/-- Witness for C5: a payment without a sequence number is handled exactly
by `process_gas_payment` and leaves the sequence slot 7 untouched. -/
theorem sequence_indexing_optionality_witness :
    process_indexed_gas_payment emptyDb ⟨pDemo, none⟩ lmDemo =
      process_gas_payment emptyDb pDemo lmDemo ∧
    retrieve_gas_payment_by_sequence
        (process_indexed_gas_payment emptyDb ⟨pDemo, none⟩ lmDemo).2 7 =
      retrieve_gas_payment_by_sequence emptyDb 7 := by
  obtain ⟨h1, h2, _⟩ := sequence_indexing_optionality.1 emptyDb ⟨pDemo, none⟩ lmDemo rfl
  exact ⟨h1, h2 7⟩

/-! ### Claim C1: the sequence-keyed columns collide (code bug) -/

def ipDemo : Indexed InterchainGasPayment := ⟨pDemo, some 7⟩
def dbSeqDemo : Db := (process_indexed_gas_payment emptyDb ipDemo lmDemo).2

/-- C1 (code bug at hyperlane_db.rs:518-519): both sequence-keyed accessor
pairs are generated with the same column constant `GAS_PAYMENT_BY_SEQUENCE`,
so the `sequence → block_number` write of a successful
`process_indexed_gas_payment` lands in the very slot of the
`sequence → payment` write and overwrites it: afterwards the block number is
retrievable but the payment retrieval fails with a decode error, refuting
the claimed independence of the two mappings. -/
theorem gas_payment_sequence_collision :
    (∀ (db : Db) (s : Nat) (p : InterchainGasPayment) (b : Nat),
       dbGet (store_gas_payment_block_by_sequence (store_gas_payment_by_sequence db s p) s b)
         GAS_PAYMENT_BY_SEQUENCE (.kU32 s) = some (.vU64 b)) ∧
    (process_indexed_gas_payment emptyDb ipDemo lmDemo).1 = .ok true ∧
    retrieve_gas_payment_block_by_sequence dbSeqDemo 7 = .ok (some 10) ∧
    retrieve_gas_payment_by_sequence dbSeqDemo 7 = .error .decodeError :=
  ⟨fun db s p b => dbGet_put_self _ _ _ _, rfl, rfl, rfl⟩

/-! ### Claim C10: error propagation of the ingestion reads -/

/-- C10 counterexample: after one successful indexed processing of sequence
7 the sequence slot holds a block number, so the duplicate-check read in a
second `process_indexed_gas_payment` fails with a decode error; yet that
second call returns `.ok false` — the `if let Ok(Some(_))` pattern swallows
the error instead of propagating it. -/
theorem storage_error_swallowed_counterexample :
    retrieve_gas_payment_by_sequence dbSeqDemo 7 = .error .decodeError ∧
    (process_indexed_gas_payment dbSeqDemo ipDemo lmDemo).1 = .ok false ∧
    (process_indexed_gas_payment dbSeqDemo ipDemo lmDemo).1 ≠ .error .decodeError := by
  decide

/-- C10 (amended): errors from the processed-flag read and the aggregate
read of `process_gas_payment` are propagated to the caller; but the
duplicate-check reads — `store_message`'s nonce lookup,
`process_indexed_gas_payment`'s sequence check and `process_tree_insertion`'s
leaf-index lookup — swallow errors and proceed exactly as if the record were
absent. -/
theorem storage_error_propagation_amended :
    (∀ (db : Db) (p : InterchainGasPayment) (lm : LogMeta) (e : DbError),
       retrieve_processed_by_gas_payment_meta db lm.meta = .error e →
       process_gas_payment db p lm = (.error e, db)) ∧
    (∀ (db : Db) (p : InterchainGasPayment) (e : DbError),
       retrieve_gas_payment_by_gas_payment_key db p.key = .error e →
       update_gas_payment_by_gas_payment_key db p = .error e) ∧
    (∀ (db : Db) (m : HyperlaneMessage) (b : Nat) (e : DbError),
       retrieve_message_id_by_nonce db m.nonce = .error e →
       store_message db m b = store_message_fresh db m b) ∧
    (∀ (db : Db) (ins : MerkleTreeInsertion) (b : Nat) (e : DbError),
       retrieve_merkle_tree_insertion_by_leaf_index db ins.index = .error e →
       (process_tree_insertion db ins b).1 = .ok true) ∧
    (∀ (db : Db) (ip : Indexed InterchainGasPayment) (lm : LogMeta) (s : Nat)
       (r1 : Bool) (db1 : Db) (e : DbError), ip.sequence = some s →
       process_gas_payment db ip.inner lm = (.ok r1, db1) →
       retrieve_gas_payment_by_sequence db1 s = .error e →
       process_indexed_gas_payment db ip lm =
         (.ok r1, store_gas_payment_block_by_sequence
           (store_gas_payment_by_sequence db1 s ip.inner) s lm.block_number)) := by
  refine ⟨?_, ?_, ?_, ?_, ?_⟩
  · intro db p lm e h
    unfold process_gas_payment
    rw [h]
  · intro db p e h
    unfold update_gas_payment_by_gas_payment_key
    rw [h]
  · intro db m b e h
    unfold store_message
    rw [h]
  · intro db ins b e h
    unfold process_tree_insertion
    rw [h]
  · intro db ip lm s r1 db1 e hseq hproc hret
    unfold process_indexed_gas_payment
    simp only [hproc, hseq, hret]

/-- Witness for the amended C10: the second indexed processing of sequence 7
hits a failing sequence read, is not aborted, and re-stores the sequence
entries. -/
theorem storage_error_propagation_amended_witness :
    process_indexed_gas_payment dbSeqDemo ipDemo lmDemo =
      (.ok false, store_gas_payment_block_by_sequence
        (store_gas_payment_by_sequence dbSeqDemo 7 pDemo) 7 10) :=
  storage_error_propagation_amended.2.2.2.2 dbSeqDemo ipDemo lmDemo 7 false dbSeqDemo
    .decodeError rfl rfl rfl

/-! ### Claim C8: watermark overwrite behaviour -/

def wmDb1 : Db := dbPut emptyDb "" (.kStr LATEST_INDEXED_GAS_PAYMENT_BLOCK) (.vU32 100)
def wmDb2 : Db := dbPut wmDb1 "" (.kStr LATEST_INDEXED_GAS_PAYMENT_BLOCK) (.vU32 50)

/-- C8 counterexample: storing gas-payment watermark 100 then 50 leaves the
retrievable watermark at 50, not at the higher previously-stored 100 — the
store is not monotonic. -/
theorem watermark_not_monotonic_counterexample :
    store_high_watermark .gasPayment emptyDb 100 = .ok wmDb1 ∧
    store_high_watermark .gasPayment wmDb1 50 = .ok wmDb2 ∧
    retrieve_high_watermark .gasPayment wmDb2 = .ok (some 50) ∧
    retrieve_high_watermark .gasPayment wmDb2 ≠ .ok (some 100) := by
  decide

/-- C8 (amended): the gas-payment high watermark store is last-write-wins —
after storing `b1` then `b2`, the retrievable watermark is `b2`, regardless
of which of the two is larger. -/
theorem watermark_last_write_wins (db : Db) (b1 b2 : Nat) (db1 db2 : Db)
    (h1 : store_high_watermark .gasPayment db b1 = .ok db1)
    (h2 : store_high_watermark .gasPayment db1 b2 = .ok db2) :
    retrieve_high_watermark .gasPayment db2 = .ok (some b2) := by
  unfold store_high_watermark at h1 h2
  injection h1 with h1
  injection h2 with h2
  subst h1
  subst h2
  simp only [retrieve_high_watermark]
  rw [dbGet_put_self]
  rfl

/-- Witness for the amended C8 at 100 then 50. -/
theorem watermark_last_write_wins_witness :
    retrieve_high_watermark .gasPayment wmDb2 = .ok (some 50) :=
  watermark_last_write_wins emptyDb 100 50 wmDb1 wmDb2 rfl rfl

/-! ### Claim C9: unsupported watermark vs absent watermark -/

/-- C9: the watermark operations for plain messages and merkle insertions
fail with the not-implemented error for every state and input, while for gas
payments retrieving the watermark from a state whose watermark slot is empty
returns absence (`.ok none`), not an error — "unsupported" and "not yet
set" are distinguishable. -/
theorem watermark_unsupported_vs_absent :
    (∀ db : Db, retrieve_high_watermark .message db = .error .notImplemented) ∧
    (∀ (db : Db) (b : Nat), store_high_watermark .message db b = .error .notImplemented) ∧
    (∀ db : Db, retrieve_high_watermark .merkleInsertion db = .error .notImplemented) ∧
    (∀ (db : Db) (b : Nat),
      store_high_watermark .merkleInsertion db b = .error .notImplemented) ∧
    (∀ db : Db, dbGet db "" (.kStr LATEST_INDEXED_GAS_PAYMENT_BLOCK) = none →
       retrieve_high_watermark .gasPayment db = .ok none) := by
  refine ⟨fun db => rfl, fun db b => rfl, fun db => rfl, fun db b => rfl, fun db h => ?_⟩
  simp only [retrieve_high_watermark]
  rw [h]
  rfl

/-- Witness for C9: the empty store has no watermark and retrieval returns
absence. -/
theorem watermark_unsupported_vs_absent_witness :
    retrieve_high_watermark .gasPayment emptyDb = .ok none :=
  watermark_unsupported_vs_absent.2.2.2.2 emptyDb rfl

end HyperlaneDb
